import Mathlib

/-
Verification of the home-lab dashboard repository (Flask service dashboard).

Shallow embedding of the Python sources:
  app.py            monolithic application (get_status, submit_job, run_compose,
                    compose_path_for, fetch_kuma_metrics, _parse_prom_metrics)
  services.py       compose_path_for
  kuma.py           _parse_prom_metrics, fetch_kuma_metrics, find_kuma_monitor_for_service
  docker_utils.py   run_compose (fallback chain), get_status (tiered resolver)
  jobs.py           submit_job and its worker task

Python dicts are modelled as insertion-ordered association lists with
unique keys; Python `None` as `Option.none`; truthiness of strings as
non-emptiness; filesystem, subprocess and network effects as explicit
oracle functions passed in environment records; `time.time()` readings as
integer timestamps supplied by the caller (only their ordering and
differences matter to the code).
-/

/-! ## Small string and list helpers (Python semantics) -/

/-- Is `pre` a prefix of `l` (character lists). -/
def isPrefixL : List Char → List Char → Bool
  | [], _ => true
  | _ :: _, [] => false
  | a :: fa, b :: fb => (a == b) && isPrefixL fa fb

/-- Does `needle` occur as a contiguous substring of `hay`?  Models Python
`needle in hay` for strings. -/
def subListOccurs (needle : List Char) : List Char → Bool
  | [] => needle.isEmpty
  | c :: rest => isPrefixL needle (c :: rest) || subListOccurs needle rest

/-- Python `tok in s` on strings. -/
def pyInStr (needle hay : String) : Bool :=
  subListOccurs needle.toList hay.toList

/-- Python `str.lower()` (ASCII letters; all inputs of interest are ASCII). -/
def pyLower (s : String) : String := (s.toList.map Char.toLower).asString

/-- Python `s.rstrip('/')`. -/
def rstripSlash (s : String) : String :=
  (s.toList.reverse.dropWhile (fun c => c == '/')).reverse.asString

/-- Python `s.split('/')[0]`. -/
def takeBeforeSlash (s : String) : String :=
  (s.toList.takeWhile (fun c => c != '/')).asString

/-- Python `str.splitlines()`: split at `\r\n`, `\r` or `\n`, no trailing
empty element for a trailing newline. -/
def splitLinesAux : List Char → List Char → List String
  | [], acc => if acc.isEmpty then [] else [acc.reverse.asString]
  | '\r' :: '\n' :: rest, acc => acc.reverse.asString :: splitLinesAux rest []
  | '\r' :: rest, acc => acc.reverse.asString :: splitLinesAux rest []
  | '\n' :: rest, acc => acc.reverse.asString :: splitLinesAux rest []
  | c :: rest, acc => splitLinesAux rest (c :: acc)

/-- Python `text.splitlines()`. -/
def splitLinesPy (s : String) : List String := splitLinesAux s.toList []

/-! ## Python dict model: insertion-ordered association list, unique keys -/

/-- Python `d.get(k)`. -/
def dictGet {α : Type} : List (String × α) → String → Option α
  | [], _ => none
  | (k', v) :: rest, k => if k' = k then some v else dictGet rest k

/-- Python `d[k] = v`: replace in place if the key exists, else append. -/
def dictInsert {α : Type} : List (String × α) → String → α → List (String × α)
  | [], k, v => [(k, v)]
  | (k', v') :: rest, k, v =>
      if k' = k then (k, v) :: rest else (k', v') :: dictInsert rest k v

/-! ## pathlib model

A `PathV` is the value of a `pathlib.Path`: an absolute flag plus the
component list remaining after the constructor's normalization (empty and
`.` segments dropped, `..` kept).  `resolveP` models `Path.resolve()`
without symlinks: anchor at the current working directory and eliminate
`..` components. -/

structure PathV where
  absolute : Bool
  comps : List String
deriving DecidableEq

/-- Split a character list at `/` (Python `s.split('/')`). -/
def splitSlashAux : List Char → List Char → List String
  | [], acc => [acc.reverse.asString]
  | '/' :: rest, acc => acc.reverse.asString :: splitSlashAux rest []
  | c :: rest, acc => splitSlashAux rest (c :: acc)

/-- `pathlib.Path(s)` (POSIX flavour). -/
def pathFromString (s : String) : PathV :=
  { absolute := match s.toList with | '/' :: _ => true | _ => false
    comps := (splitSlashAux s.toList []).filter (fun c => (c != "") && (c != ".")) }

/-- `pathlib` `/` join: an absolute right operand replaces the left. -/
def joinP (a b : PathV) : PathV :=
  if b.absolute then b else { absolute := a.absolute, comps := a.comps ++ b.comps }

/-- Eliminate `..` components against their parent (what `resolve()` does
syntactically; `..` at the root is dropped). -/
def elimDotDot (l : List String) : List String :=
  l.foldl (fun acc c => if c = ".." then acc.dropLast else acc ++ [c]) []

/-- `Path.resolve()`: make absolute against `cwd`, eliminate `..`. -/
def resolveP (cwd p : PathV) : PathV :=
  let q := if p.absolute then p else joinP cwd p
  { absolute := true, comps := elimDotDot q.comps }

/-! ## Service descriptors (services.json records) -/

/-- One service registry record; absent fields are `none`
(`service.get(...)` returns Python `None`). -/
structure Service where
  name : Option String
  url : Option String
  compose : Option String

/-- `compose_path_for` from `services.py` / `app.py`:
`Path(service.get('compose', ''))`; absolute paths returned as
constructed, relative ones joined to `COMPOSE_DIR` and resolved. -/
def compose_path_for (cwd composeDir : PathV) (s : Service) : PathV :=
  let path := pathFromString (s.compose.getD "")
  if path.absolute then path else resolveP cwd (joinP composeDir path)

/-! ## urllib.parse.urlparse model (scheme and netloc only)

`urlparse` lowercases a syntactically valid scheme and leaves the netloc
untouched; the netloc is present only when `//` follows the scheme
separator (or starts the string) and runs up to the next `/`, `?` or `#`.
A netloc with unbalanced square brackets raises `ValueError`, modelled as
`none`. -/

def isSchemeChar (c : Char) : Bool :=
  c.isAlpha || c.isDigit || c == '+' || c == '-' || c == '.'

/-- `urlparse(u)` restricted to `(scheme, netloc)`; `none` models the
`ValueError` raised on unbalanced brackets in the netloc. -/
def urlparseSN (u : String) : Option (String × String) :=
  let cs := u.toList
  let (pre, post) := cs.span (fun c => c != ':')
  let (scheme, rest) :=
    match post with
    | ':' :: after =>
        if pre ≠ [] ∧ (pre.headD ' ').isAlpha = true ∧ pre.all isSchemeChar = true then
          (pyLower pre.asString, after)
        else ("", cs)
    | _ => ("", cs)
  match rest with
  | '/' :: '/' :: r =>
      let nl := r.takeWhile (fun c => c != '/' && c != '?' && c != '#')
      if (nl.contains '[' && !(nl.contains ']')) ||
         (nl.contains ']' && !(nl.contains '[')) then none
      else some (scheme, nl.asString)
  | _ => some (scheme, "")

/-- `_norm_url` from `kuma.py` / `app.py` `_parse_prom_metrics`: keep
`scheme://netloc` when a netloc parses, else the substring before the
first `/`; strip trailing slashes; falsy input gives `None`; a parse
error falls back to `u.rstrip('/')`. -/
def normUrl : Option String → Option String
  | none => none
  | some u =>
      if u = "" then none
      else
        match urlparseSN u with
        | some (sch, nl) =>
            if nl ≠ "" then some (rstripSlash (sch ++ "://" ++ nl))
            else some (rstripSlash (takeBeforeSlash u))
        | none => some (rstripSlash u)

/-! ## Monitor entries and _parse_prom_metrics (kuma.py / app.py) -/

/-- One parsed monitor entry (the per-monitor dict built by
`_parse_prom_metrics`). -/
structure PMEntry where
  name : Option String
  url : Option String
  norm_url : Option String
  monitor_id : String
  status_code : Option Int
deriving DecidableEq

def isMetricChar (c : Char) : Bool :=
  c.isAlpha || c.isDigit || c == '_' || c == ':'

/-- Python regex `\s` on ASCII text. -/
def isPySpace (c : Char) : Bool :=
  c == ' ' || c == '\t' || c == '\n' || c == '\r' ||
  c == Char.ofNat 11 || c == Char.ofNat 12

/-- Characters admitted by the value group `[-0-9.eE]`. -/
def isValueChar (c : Char) : Bool :=
  c == '-' || c.isDigit || c == '.' || c == 'e' || c == 'E'

/-- `metric_re.match(line)` for
`^([a-zA-Z_:0-9]+)\x7b([^\x7d]*)\x7d\s+([-0-9.eE]+)`: returns
`(metric, labels, value)` groups.  Each quantified class excludes the
character that follows it, so greedy take-while scanning is exact. -/
def lineMatch (line : String) : Option (String × String × String) :=
  let cs := line.toList
  let (metric, r1) := cs.span isMetricChar
  if metric.isEmpty then none
  else
    match r1 with
    | c :: r2 =>
        if c = Char.ofNat 123 then
          let (lab, r3) := r2.span (fun ch => ch != Char.ofNat 125)
          match r3 with
          | _ :: r4 =>
              let (sp, r5) := r4.span isPySpace
              if sp.isEmpty then none
              else
                let (v, _) := r5.span isValueChar
                if v.isEmpty then none
                else some (metric.asString, lab.asString, v.asString)
          | [] => none
        else none
    | [] => none

/-- Python regex `\w`. -/
def isWordChar (c : Char) : Bool := c.isAlphanum || c == '_'

/-- One attempted match of `(\w+)="([^"\\]*)"` at the head of `cs`. -/
def tryLabelAt (cs : List Char) : Option (String × String × List Char) :=
  let (k, r1) := cs.span isWordChar
  if k.isEmpty then none
  else
    match r1 with
    | '=' :: '"' :: r2 =>
        let (v, r3) := r2.span (fun c => c != '"' && c != '\\')
        match r3 with
        | '"' :: rest => some (k.asString, v.asString, rest)
        | _ => none
    | _ => none

/-- `re.findall(r'(\w+)="([^"\\]*)"', s)`: leftmost non-overlapping
matches.  Fuel is the length of the text; each step consumes at least one
character. -/
def findLabels : Nat → List Char → List (String × String)
  | 0, _ => []
  | _, [] => []
  | fuel + 1, c :: rest =>
      match tryLabelAt (c :: rest) with
      | some (k, v, rest') => (k, v) :: findLabels fuel rest'
      | none => findLabels fuel rest

/-- `parse_labels` from `_parse_prom_metrics`: findall results folded into
a dict. -/
def buildLabelDict (s : String) : List (String × String) :=
  (findLabels s.toList.length s.toList).foldl
    (fun d kv => dictInsert d kv.1 kv.2) []

/-- Digits to a natural number. -/
def digitsToNat (l : List Char) : Nat :=
  l.foldl (fun n c => 10 * n + (c.toNat - 48)) 0

/-- The exact value of a parsed float literal: `mant * 10 ^ exp10`.
(Binary rounding and overflow of IEEE floats are not modelled; the metric
values of interest are small integers, on which this is exact.) -/
structure PyFloat where
  mant : Int
  exp10 : Int
deriving DecidableEq

def pow10 : Nat → Int
  | 0 => 1
  | n + 1 => 10 * pow10 n

/-- Python `int(x)` on a float value: truncation toward zero. -/
def PyFloat.trunc (v : PyFloat) : Int :=
  if 0 ≤ v.exp10 then v.mant * pow10 v.exp10.toNat
  else v.mant.tdiv (pow10 (-v.exp10).toNat)

/-- Python `float(s)` on strings drawn from `[-0-9.eE]+`: optional
leading minus, digits with optional decimal point (digits required on at
least one side), optional exponent that must consume the rest of the
string.  `none` models `ValueError`. -/
def parsePyFloat (s : String) : Option PyFloat :=
  let cs := s.toList
  let (neg, cs1) :=
    match cs with
    | c :: rest => if c = '-' then (true, rest) else (false, cs)
    | [] => (false, cs)
  let (ip, cs2) := cs1.span Char.isDigit
  let (fp, cs3) :=
    match cs2 with
    | c :: rest =>
        if c = '.' then
          let (f, r) := rest.span Char.isDigit
          (some f, r)
        else (none, cs2)
    | [] => (none, cs2)
  let fracEmpty := match fp with | some f => f.isEmpty | none => true
  if ip.isEmpty ∧ fracEmpty then none
  else
    let frac := match fp with | some f => f | none => []
    let m0 : Int := (digitsToNat (ip ++ frac) : Int)
    let m : Int := if neg then -m0 else m0
    let fracLen : Int := (frac.length : Int)
    match cs3 with
    | [] => some ⟨m, -fracLen⟩
    | c :: rest =>
        if c = 'e' ∨ c = 'E' then
          let (eneg, r2) :=
            match rest with
            | c2 :: r => if c2 = '-' then (true, r) else (false, rest)
            | [] => (false, rest)
          let (ed, r3) := r2.span Char.isDigit
          if ed.isEmpty ∨ r3 ≠ [] then none
          else
            let e : Int := if eneg then -(digitsToNat ed : Int) else (digitsToNat ed : Int)
            some ⟨m, e - fracLen⟩
        else none

/-- Set `status_code` on the entry stored at key `k`
(`monitors[entry_key]['status_code'] = int(value)`). -/
def dictSetStatus : List (String × PMEntry) → String → Int → List (String × PMEntry)
  | [], _, _ => []
  | (k', e) :: rest, k, sc =>
      if k' = k then (k', { e with status_code := some sc }) :: rest
      else (k', e) :: dictSetStatus rest k sc

/-- The body of the per-line loop of `_parse_prom_metrics`, accumulating
the `monitors` dict. -/
def processLine (monitors : List (String × PMEntry)) (line : String) :
    List (String × PMEntry) :=
  match lineMatch line with
  | none => monitors
  | some (metric, labelsStr, valueStr) =>
      match parsePyFloat valueStr with
      | none => monitors
      | some value =>
          let labels := buildLabelDict labelsStr
          let name := dictGet labels "monitor_name"
          let url := dictGet labels "monitor_url"
          let norm := normUrl url
          let keyUrl : Option String :=
            match norm with
            | some n => if n = "" then none else some ("url:" ++ n)
            | none => none
          let keyName : Option String :=
            match name with
            | some n => if n = "" then none else some ("name:" ++ pyLower n)
            | none => none
          let entryId :=
            match dictGet labels "monitor_id" with
            | some m => if m = "" then toString monitors.length else m
            | none => toString monitors.length
          let entryKey := keyUrl.getD (keyName.getD ("id:" ++ entryId))
          let monitors1 :=
            match dictGet monitors entryKey with
            | some _ => monitors
            | none =>
                dictInsert monitors entryKey
                  { name := name, url := url, norm_url := norm,
                    monitor_id := entryId, status_code := none }
          if metric = "monitor_status" then dictSetStatus monitors1 entryKey value.trunc
          else monitors1

/-- The `monitors` dict after the line loop of `_parse_prom_metrics`. -/
def groupedMonitors (text : String) : List (String × PMEntry) :=
  (splitLinesPy text).foldl processLine []

/-- `monitors.values()` in iteration (insertion) order. -/
def groupedEntries (text : String) : List PMEntry :=
  (groupedMonitors text).map Prod.snd

/-- The keys an entry is registered under in the final mapping, in the
order the source registers them (`url:`, then `name:`, then `id:`). -/
def keyListOf (e : PMEntry) : List String :=
  (match e.norm_url with
   | some n => if n = "" then [] else ["url:" ++ n]
   | none => []) ++
  (match e.name with
   | some n => if n = "" then [] else ["name:" ++ pyLower n]
   | none => []) ++
  (if e.monitor_id = "" then [] else ["id:" ++ e.monitor_id])

/-- Register one entry in the final mapping under all its keys. -/
def registerEntry (mapped : List (String × PMEntry)) (e : PMEntry) :
    List (String × PMEntry) :=
  (keyListOf e).foldl (fun m k => dictInsert m k e) mapped

/-- The second loop of `_parse_prom_metrics`: build `mapped` from the
grouped entries. -/
def buildMapped (vals : List PMEntry) : List (String × PMEntry) :=
  vals.foldl registerEntry []

/-- `_parse_prom_metrics(text)`: the final keyed snapshot mapping. -/
def parse_prom_metrics (text : String) : List (String × PMEntry) :=
  buildMapped (groupedEntries text)

/-! ## find_kuma_monitor_for_service (kuma.py / app.py) -/

/-- The `url:` lookup key computed for a service URL inside
`find_kuma_monitor_for_service`: `scheme://netloc` when a netloc parses,
else the substring before the first `/` (a parse error falls back to
`rstrip('/')`), then `rstrip('/')` and the `url:` prefix. -/
def serviceUrlKey (u : String) : String :=
  let keyUrl :=
    match urlparseSN u with
    | some (sch, nl) => if nl ≠ "" then sch ++ "://" ++ nl else takeBeforeSlash u
    | none => rstripSlash u
  "url:" ++ rstripSlash keyUrl

/-- `find_kuma_monitor_for_service(service, kuma)`: URL key first, then
lowercased name key; an empty snapshot (falsy dict) matches nothing. -/
def find_kuma_monitor_for_service (sUrl sName : Option String)
    (kuma : List (String × PMEntry)) : Option PMEntry :=
  if kuma = [] then none
  else
    let byUrl : Option PMEntry :=
      match sUrl with
      | some u => if u = "" then none else dictGet kuma (serviceUrlKey u)
      | none => none
    match byUrl with
    | some m => some m
    | none =>
        match sName with
        | some n => if n = "" then none else dictGet kuma ("name:" ++ pyLower n)
        | none => none

/-! ## fetch_kuma_metrics (kuma.py / app.py)

State-passing model: the module-level cache is threaded explicitly, the
HTTP GET is an oracle argument, and the function also reports how many
network calls it performed. -/

/-- The module-level `_KUMA_METRICS_CACHE`. -/
structure KumaCache where
  ts : Int
  data : List (String × PMEntry)
deriving DecidableEq

/-- Environment configuration read by `fetch_kuma_metrics`. -/
structure KumaConfig where
  baseUrl : Option String
  apiKey : Option String
  ttl : Int

/-- Outcome of the `requests.get(... '/metrics' ...)` call;
`err` covers connection errors and `raise_for_status`. -/
inductive FetchOutcome
  | err
  | ok (body : String)

/-- `fetch_kuma_metrics()`: returns the snapshot, the cache afterwards,
and the number of network calls made. -/
def fetch_kuma_metrics (cfg : KumaConfig) (cache : KumaCache) (now : Int)
    (http : FetchOutcome) : List (String × PMEntry) × KumaCache × Nat :=
  match cfg.baseUrl with
  | none => ([], cache, 0)
  | some b =>
      if b = "" then ([], cache, 0)
      else if now - cache.ts < cfg.ttl ∧ cache.data ≠ [] then (cache.data, cache, 0)
      else
        match http with
        | .err => ([], cache, 1)
        | .ok body =>
            let parsed := parse_prom_metrics body
            (parsed, { ts := now, data := parsed }, 1)

/-! ## Subprocess and HTTP oracles for the status/compose code -/

/-- Outcome of one `subprocess.run` invocation: the binary was absent
(`FileNotFoundError`), some other exception was raised (timeouts
included), or the process completed with an exit code and combined
stdout+stderr. -/
inductive ExecOutcome
  | notFound (msg : String)
  | raisedExc (msg : String)
  | completed (rc : Int) (out : String)

def ExecOutcome.isNotFound : ExecOutcome → Bool
  | .notFound _ => true
  | _ => false

/-- Outcome of `requests.get(url, ...)` for the liveness probe. -/
inductive HttpOutcome
  | netErr
  | resp (code : Nat)

/-- The token scan of the `ps` output:
`any(tok in out.lower() for tok in ('up','running','healthy','started'))`. -/
def hasRunningToken (out : String) : Bool :=
  ["up", "running", "healthy", "started"].any (fun tok => pyInStr tok (pyLower out))

/-- An invocation outcome that does not let the CLI tier conclude
`running`: absent binary, error/timeout, or token-free output. -/
def inconclusiveB : ExecOutcome → Bool
  | .completed _ out => !(hasRunningToken out)
  | _ => true

/-! ## docker_utils.get_status: the three-tier resolver -/

/-- A compose path as seen by `docker_utils` (`service['__compose_path']`):
its string form and `path.parent.name` (`none` when falsy). -/
structure DuPath where
  pathStr : String
  parentName : Option String
deriving DecidableEq

/-- Service dict consumed by `docker_utils.get_status`. -/
structure DuService where
  name : Option String
  url : Option String
  composePath : Option DuPath

/-- The project-name candidates `[dirname?, 'docker', 'services', None]`
shared by `run_compose` and `get_status`. -/
def projectCandidates (parentName : Option String) : List (Option String) :=
  (match parentName with
   | some n => if n = "" then [] else [some n]
   | none => []) ++ [some "docker", some "services", none]

/-- `['docker','compose'] (+ ['-p', proj])`. -/
def baseFor (proj : Option String) : List String :=
  ["docker", "compose"] ++ (match proj with | some p => ["-p", p] | none => [])

/-- The `ps` command for one project candidate. -/
def psCmd (p : DuPath) (proj : Option String) : List String :=
  baseFor proj ++ ["-f", p.pathStr, "ps"]

/-- Oracles for `docker_utils.get_status`. -/
structure DuEnv where
  exec : List String → ExecOutcome
  http : String → HttpOutcome

/-- The CLI tier of `docker_utils.get_status`: try `ps` per candidate;
token hit returns `running`; `FileNotFoundError` breaks out; any other
exception moves to the next candidate. -/
def cliPsLoop (exec : List String → ExecOutcome) (p : DuPath) :
    List (Option String) → Option String
  | [] => none
  | proj :: rest =>
      match exec (psCmd p proj) with
      | .completed _ out =>
          if hasRunningToken out then some "running" else cliPsLoop exec p rest
      | .notFound _ => none
      | .raisedExc _ => cliPsLoop exec p rest

/-- The HTTP probe tier (`requests.get(url, timeout=3, ...)`); a falsy
status code or a network error yield `unknown`/`stopped` as in source. -/
def httpProbe (http : String → HttpOutcome) (sUrl : Option String) : String :=
  match sUrl with
  | some u =>
      if u = "" then "unknown"
      else
        match http u with
        | .netErr => "unknown"
        | .resp code => if code ≠ 0 ∧ code < 400 then "running" else "stopped"
  | none => "unknown"

/-- Monitor tier then HTTP tier of `docker_utils.get_status`. -/
def kumaHttpTier (http : String → HttpOutcome) (sUrl sName : Option String)
    (kuma : List (String × PMEntry)) : String :=
  match find_kuma_monitor_for_service sUrl sName kuma with
  | some mon =>
      match mon.status_code with
      | some sc => if sc = 1 then "running" else "stopped"
      | none => httpProbe http sUrl
  | none => httpProbe http sUrl

/-- `docker_utils.get_status(service, kuma)`. -/
def get_status_du (env : DuEnv) (s : DuService)
    (kuma : List (String × PMEntry)) : String :=
  let afterCli :=
    match s.composePath with
    | some p => cliPsLoop env.exec p (projectCandidates p.parentName)
    | none => none
  match afterCli with
  | some r => r
  | none => kumaHttpTier env.http s.url s.name kuma

/-! ## app.py get_status (monolithic variant)

This variant checks the compose path on disk first and returns `missing`
when it does not exist.  Its single `docker compose ps` invocation is one
`ExecOutcome`; the Kuma and HTTP tiers run only inside the
`FileNotFoundError` handler; a completed-but-inconclusive `ps` and a
probe-less fall-through leave the function without a return statement,
i.e. Python `None`. -/

/-- Oracles for `app.py`'s `get_status`. -/
structure AppEnv where
  pathExists : PathV → Bool
  exec : ExecOutcome
  http : String → HttpOutcome

/-- The HTTP probe inside the `FileNotFoundError` handler of
`app.py::get_status`; no URL falls off the end of the function. -/
def httpProbeApp (http : String → HttpOutcome) (sUrl : Option String) :
    Option String :=
  match sUrl with
  | some u =>
      if u = "" then none
      else
        match http u with
        | .netErr => some "unknown"
        | .resp code => some (if code ≠ 0 ∧ code < 400 then "running" else "stopped")
  | none => none

/-- Everything after the existence check in `app.py::get_status`. -/
def get_status_app_body (env : AppEnv) (s : Service)
    (kuma : List (String × PMEntry)) : Option String :=
  match env.exec with
  | .completed _ out => if hasRunningToken out then some "running" else none
  | .raisedExc _ => some "unknown"
  | .notFound _ =>
      match find_kuma_monitor_for_service s.url s.name kuma with
      | some mon =>
          match mon.status_code with
          | some sc => some (if sc = 1 then "running" else "stopped")
          | none => httpProbeApp env.http s.url
      | none => httpProbeApp env.http s.url

/-- `app.py::get_status(service, kuma)`. -/
def get_status_app (env : AppEnv) (cwd composeDir : PathV) (s : Service)
    (kuma : List (String × PMEntry)) : Option String :=
  if env.pathExists (compose_path_for cwd composeDir s) = false then some "missing"
  else get_status_app_body env s kuma

/-! ## docker_utils.run_compose: the fallback chain

The embedding also records the trace of commands handed to
`subprocess.run` (attempted spawns, including those that raise
`FileNotFoundError`). -/

/-- `['up','-d']` or `['down']`. -/
def composeActionArgs (action : String) : List String :=
  if action = "up" then ["up", "-d"] else ["down"]

/-- A primary-form command: `docker compose [-p proj] -f path <action>`. -/
def primaryCmd (p : DuPath) (action : String) (proj : Option String) : List String :=
  baseFor proj ++ ["-f", p.pathStr] ++ composeActionArgs action

/-- A long-flag alternative: `docker compose [-p proj] --file path <action>`. -/
def altCmdOf (p : DuPath) (action : String) (proj : Option String) : List String :=
  baseFor proj ++ ["--file", p.pathStr] ++ composeActionArgs action

/-- The legacy standalone binary: `docker-compose -f path <action>`. -/
def legacyCmd (p : DuPath) (action : String) : List String :=
  ["docker-compose", "-f", p.pathStr] ++ composeActionArgs action

/-- `alt_cmds`: long-flag variants for every project candidate, then the
legacy binary. -/
def altCmds (p : DuPath) (action : String) (cands : List (Option String)) :
    List (List String) :=
  cands.map (altCmdOf p action) ++ [legacyCmd p action]

/-- First loop of `run_compose`: `-f` form per candidate.  Returns the
early-success output if any, the final value of the `out` variable, and
the trace of attempted commands.  `FileNotFoundError` breaks the loop
with `out = str(e)`; other exceptions set `out` and continue. -/
def primaryLoop (exec : List String → ExecOutcome) (p : DuPath) (action : String) :
    List (Option String) → String → Option String × String × List (List String)
  | [], out => (none, out, [])
  | proj :: rest, _out =>
      let cmd := primaryCmd p action proj
      match exec cmd with
      | .completed rc o =>
          if rc = 0 then (some o, o, [cmd])
          else
            let r := primaryLoop exec p action rest o
            (r.1, r.2.1, cmd :: r.2.2)
      | .notFound m => (none, m, [cmd])
      | .raisedExc m =>
          let r := primaryLoop exec p action rest m
          (r.1, r.2.1, cmd :: r.2.2)

/-- Second loop of `run_compose` over `alt_cmds`: every failure —
including a missing binary — moves to the next command. -/
def altLoop (exec : List String → ExecOutcome) :
    List (List String) → Option String × List (List String)
  | [] => (none, [])
  | cmd :: rest =>
      match exec cmd with
      | .completed rc o =>
          if rc = 0 then (some o, [cmd])
          else
            let r := altLoop exec rest
            (r.1, cmd :: r.2)
      | .notFound _ =>
          let r := altLoop exec rest
          (r.1, cmd :: r.2)
      | .raisedExc _ =>
          let r := altLoop exec rest
          (r.1, cmd :: r.2)

/-- Oracles for `run_compose`: the subprocess runner and the docker-SDK
`down` fallback (`some msg` when the SDK path succeeds with message
`msg`, `none` when it is unavailable or fails). -/
structure RunEnv where
  exec : List String → ExecOutcome
  sdkDownMsg : Option String

/-- `docker_utils.run_compose(compose_path, action)` with an attempted-
command trace.  `cpExists` is `compose_path.exists()`; `p.parentName`
is `compose_path.parent.name`. -/
def run_compose (env : RunEnv) (cpExists : Bool) (p : DuPath) (action : String) :
    (Bool × String) × List (List String) :=
  if cpExists = false then ((false, "compose file not found"), [])
  else
    let cands := projectCandidates p.parentName
    let pr := primaryLoop env.exec p action cands ""
    match pr.1 with
    | some o => ((true, o), pr.2.2)
    | none =>
        let al := altLoop env.exec (altCmds p action cands)
        match al.1 with
        | some o => ((true, o), pr.2.2 ++ al.2)
        | none =>
            let failMsg := "All compose invocation attempts failed. Last output: " ++ pr.2.1
            if action = "down" then
              match env.sdkDownMsg with
              | some m => ((true, m), pr.2.2 ++ al.2)
              | none => ((false, failMsg), pr.2.2 ++ al.2)
            else ((false, failMsg), pr.2.2 ++ al.2)

/-! ## Jobs (jobs.py submit_job and its worker)

A job is mutated by exactly one worker task; the observable lifecycle is
the list of job states after each mutation.  `jobs.py` line 116 calls
`run_compose(compose_path, action, svc_name)` with three positional
arguments, but `docker_utils.run_compose` declares two parameters, so
Python raises `TypeError` before the callee body runs; the exception is
not caught inside `_run`, so the worker dies inside the executor and no
further state transition happens. -/

structure Job where
  id : String
  action : String
  name : Option String
  status : String
  result : Option String
  started_at : Option Int
  finished_at : Option Int
deriving DecidableEq

/-- The initial record written by `submit_job`. -/
def initJob (idv action : String) (svcName : Option String) : Job :=
  { id := idv, action := action, name := svcName, status := "pending",
    result := none, started_at := none, finished_at := none }

/-- First transition of the worker: `status='running'`, `started_at`. -/
def markRunning (j : Job) (t : Int) : Job :=
  { j with status := "running", started_at := some t }

/-- Terminal transition: `done`/`failed`, `result`, `finished_at`. -/
def markFinal (j : Job) (ok : Bool) (out : String) (t : Int) : Job :=
  { j with status := if ok then "done" else "failed",
           result := some out, finished_at := some t }

/-- Python call semantics for `jobs.py` line 116: applying
`docker_utils.run_compose` (two positional parameters) to three
positional arguments raises `TypeError` before the body runs. -/
def jobsRunComposeCall : Except String (Bool × String) :=
  Except.error "TypeError: run_compose() takes 2 positional arguments but 3 were given"

/-- The worker `_run` of `jobs.py::submit_job`: mark running, invoke the
compose call; an uncaught exception ends the task with no terminal
transition. -/
def jobsWorkerStates (j : Job) (t1 : Int) (call : Except String (Bool × String))
    (t2 : Int) : List Job :=
  let j1 := markRunning j t1
  match call with
  | Except.error _ => [j1]
  | Except.ok r => [j1, markFinal j1 r.1 r.2 t2]

/-- Observable state sequence of a job submitted through
`jobs.py::submit_job` (initial record, then each worker mutation), with
the compose invocation as written on line 116. -/
def submitJobStates (idv action : String) (svcName : Option String)
    (t1 t2 : Int) : List Job :=
  let j0 := initJob idv action svcName
  j0 :: jobsWorkerStates j0 t1 jobsRunComposeCall t2

/-! ## Properties stated over the parsed snapshot (for the key-reachability
claim) -/

/-- Every entry stored in the mapping is retrievable under each of its
non-absent keys, and each such lookup returns that same entry. -/
def entryKeysConsistent (m : List (String × PMEntry)) : Bool :=
  (m.map Prod.snd).all fun e =>
    (keyListOf e).all fun k => decide (dictGet m k = some e)

/-- Two entries are either equal or register disjoint key sets. -/
def disjointKeysB (e e2 : PMEntry) : Bool :=
  decide (e = e2) || (keyListOf e).all fun k => decide (k ∉ keyListOf e2)

/-- Pairwise version of `disjointKeysB` along a list. -/
def pairwiseDisjointKeysB : List PMEntry → Bool
  | [] => true
  | e :: rest => rest.all (disjointKeysB e) && pairwiseDisjointKeysB rest

/-! # Theorems -/

/-! ## Helper lemmas about the status resolvers -/

/-- The HTTP probe of `app.py::get_status` can never produce `missing`. -/
theorem httpProbeApp_ne_missing (http : String → HttpOutcome) (sUrl : Option String) :
    httpProbeApp http sUrl ≠ some "missing" := by
  unfold httpProbeApp
  cases sUrl with
  | none => simp
  | some u =>
      by_cases hu : u = ""
      · simp [hu]
      · simp only [if_neg hu]
        rcases hh : http u with _ | code <;> simp only [hh]
        · decide
        · split <;> decide

/-- Once the existence check has passed, `app.py::get_status` can never
produce `missing`. -/
theorem get_status_app_body_ne_missing (env : AppEnv) (s : Service)
    (kuma : List (String × PMEntry)) :
    get_status_app_body env s kuma ≠ some "missing" := by
  unfold get_status_app_body
  rcases hx : env.exec with m | m | ⟨rc, out⟩ <;> simp only [hx]
  · rcases hm : find_kuma_monitor_for_service s.url s.name kuma with _ | mon <;>
      simp only [hm]
    · exact httpProbeApp_ne_missing env.http s.url
    · rcases hsc : mon.status_code with _ | sc <;> simp only [hsc]
      · exact httpProbeApp_ne_missing env.http s.url
      · split <;> decide
  · decide
  · split <;> decide

/-! ## C1: nonexistent compose path short-circuits to `missing` -/

/-- C1: for every service descriptor whose resolved compose path does not
exist on disk, `app.py::get_status` returns `missing` immediately, for
every CLI outcome, monitor snapshot and HTTP oracle — so neither the CLI
tier, nor the monitor tier, nor the HTTP probe can influence the verdict. -/
theorem c1_nonexistent_compose_returns_missing (env : AppEnv) (cwd composeDir : PathV)
    (s : Service) (kuma : List (String × PMEntry))
    (h : env.pathExists (compose_path_for cwd composeDir s) = false) :
    get_status_app env cwd composeDir s kuma = some "missing" := by
  simp [get_status_app, h]

/-- C1 witness: a concrete descriptor with an absent compose file is
reported `missing` even though the monitor says UP and a probe would
return 200. -/
theorem c1_witness :
    get_status_app
      ⟨fun _ => false, ExecOutcome.notFound "docker", fun _ => HttpOutcome.resp 200⟩
      ⟨true, []⟩ ⟨true, ["srv"]⟩
      ⟨some "wiki", some "http://wiki.local", some "wiki/docker-compose.yml"⟩
      [("url:http://wiki.local",
        ⟨some "wiki", some "http://wiki.local", some "http://wiki.local", "3", some 1⟩)]
      = some "missing" :=
  c1_nonexistent_compose_returns_missing _ _ _ _ _ rfl

/-! ## C10: compose_path_for is total; absolute and empty configurations -/

/-- C10: `compose_path_for` is total (it is a Lean function, so it is
defined and exception-free on every descriptor); an absolute configured
path is returned exactly as constructed, with no `resolve()` applied; an
absent or empty `compose` field resolves to the compose base directory
itself, so such a descriptor is not reported `missing` whenever that
resolved base directory exists. -/
theorem c10_compose_path_total (cwd composeDir : PathV) (s : Service) :
    (∀ c, s.compose = some c → (pathFromString c).absolute = true →
        compose_path_for cwd composeDir s = pathFromString c) ∧
    ((s.compose = none ∨ s.compose = some "") →
        compose_path_for cwd composeDir s = resolveP cwd composeDir) ∧
    (∀ (env : AppEnv) (kuma : List (String × PMEntry)),
        (s.compose = none ∨ s.compose = some "") →
        env.pathExists (resolveP cwd composeDir) = true →
        get_status_app env cwd composeDir s kuma ≠ some "missing") := by
  have hempty : ∀ h : s.compose = none ∨ s.compose = some "",
      compose_path_for cwd composeDir s = resolveP cwd composeDir := by
    intro h
    have hbase : s.compose.getD "" = "" := by rcases h with h | h <;> simp [h]
    have hpath : pathFromString "" = PathV.mk false [] := by decide
    have hjoin : joinP composeDir (PathV.mk false []) = composeDir := by
      cases composeDir; simp [joinP]
    simp [compose_path_for, hbase, hpath, hjoin]
  refine ⟨?_, hempty, ?_⟩
  · intro c hc habs
    simp [compose_path_for, hc, habs]
  · intro env kuma h hex
    rw [show get_status_app env cwd composeDir s kuma
          = if env.pathExists (compose_path_for cwd composeDir s) = false
            then some "missing" else get_status_app_body env s kuma from rfl]
    rw [hempty h, hex]
    simpa using get_status_app_body_ne_missing env s kuma

/-- C10 witness: an absolute configured path is returned as constructed;
a descriptor without a `compose` field resolves to the base directory and
is not `missing` when that directory exists. -/
theorem c10_witness :
    compose_path_for ⟨true, []⟩ ⟨true, ["srv"]⟩ ⟨none, none, some "/etc/app/compose.yml"⟩
      = pathFromString "/etc/app/compose.yml" ∧
    compose_path_for ⟨true, []⟩ ⟨true, ["srv"]⟩ ⟨some "wiki", none, none⟩
      = resolveP ⟨true, []⟩ ⟨true, ["srv"]⟩ ∧
    get_status_app ⟨fun _ => true, ExecOutcome.raisedExc "boom", fun _ => HttpOutcome.netErr⟩
      ⟨true, []⟩ ⟨true, ["srv"]⟩ ⟨some "wiki", none, none⟩ [] ≠ some "missing" :=
  ⟨(c10_compose_path_total ⟨true, []⟩ ⟨true, ["srv"]⟩ _).1 _ rfl rfl,
   (c10_compose_path_total ⟨true, []⟩ ⟨true, ["srv"]⟩ _).2.1 (Or.inl rfl),
   (c10_compose_path_total ⟨true, []⟩ ⟨true, ["srv"]⟩ _).2.2 _ [] (Or.inl rfl) rfl⟩

/-! ## C3: job lifecycle (code bug in jobs.py line 116) -/

/-- C3 (evaluation at the failing input): a job submitted through
`jobs.py::submit_job` — e.g. `submit_job('start', 'wiki', path)` with the
worker starting at t=100 — transitions `pending → running` and then
stalls: the worker's `run_compose(compose_path, action, svc_name)` call
raises `TypeError` (the imported `docker_utils.run_compose` declares two
positional parameters), so no terminal transition ever happens, `result`
stays absent and `finished_at` is never set, contrary to the claimed
`pending → running → {done,failed}` round trip. -/
theorem c3_jobs_worker_stalls_running :
    (submitJobStates "j1" "start" (some "wiki") 100 200).map Job.status
      = ["pending", "running"] ∧
    ∀ j ∈ submitJobStates "j1" "start" (some "wiki") 100 200,
      j.finished_at = none ∧ j.result = none ∧ j.status ≠ "done" ∧ j.status ≠ "failed" := by
  decide

/-! ## C7: a fresh non-empty cache short-circuits the fetch -/

/-- Whenever `fetch_kuma_metrics` returns a non-empty snapshot, the cache
it leaves behind holds exactly that snapshot. -/
theorem fetch_cache_data (cfg : KumaConfig) (c0 : KumaCache) (t : Int) (h : FetchOutcome)
    (hne : (fetch_kuma_metrics cfg c0 t h).1 ≠ []) :
    (fetch_kuma_metrics cfg c0 t h).2.1.data = (fetch_kuma_metrics cfg c0 t h).1 := by
  unfold fetch_kuma_metrics at hne ⊢
  rcases hb : cfg.baseUrl with _ | b <;> simp only [hb] at hne ⊢
  · simp at hne
  · by_cases h1 : b = ""
    · simp [h1] at hne
    · simp only [if_neg h1] at hne ⊢
      by_cases h2 : t - c0.ts < cfg.ttl ∧ c0.data ≠ []
      · simp only [if_pos h2] at hne ⊢
      · simp only [if_neg h2] at hne ⊢
        cases h with
        | err => simp at hne
        | ok body => rfl

/-- C7: a second call to `fetch_kuma_metrics`, made while the snapshot
cached by a first call is non-empty and younger than the TTL, performs
zero network calls, returns the identical snapshot mapping, and leaves
the cache unchanged — whatever the second HTTP outcome would have been. -/
theorem c7_cached_fetch_idempotent (cfg : KumaConfig) (c0 : KumaCache) (t1 t2 : Int)
    (h1 h2 : FetchOutcome) (b : String)
    (hb : cfg.baseUrl = some b) (hbne : b ≠ "")
    (hne : (fetch_kuma_metrics cfg c0 t1 h1).1 ≠ [])
    (hfresh : t2 - (fetch_kuma_metrics cfg c0 t1 h1).2.1.ts < cfg.ttl) :
    fetch_kuma_metrics cfg (fetch_kuma_metrics cfg c0 t1 h1).2.1 t2 h2
      = ((fetch_kuma_metrics cfg c0 t1 h1).1,
         (fetch_kuma_metrics cfg c0 t1 h1).2.1, 0) := by
  have hdata := fetch_cache_data cfg c0 t1 h1 hne
  set d1 := (fetch_kuma_metrics cfg c0 t1 h1).1 with hd1
  set c1 := (fetch_kuma_metrics cfg c0 t1 h1).2.1 with hc1
  have hcd : c1.data ≠ [] := by rw [hdata]; exact hne
  unfold fetch_kuma_metrics
  rw [hb]
  simp only [if_neg hbne, hdata]
  rw [if_pos (And.intro hfresh hne)]

/-! ## C8: errors return an empty mapping and never touch the cache -/

/-- C8: with a monitor endpoint configured and no fresh non-empty cache,
a network/HTTP error makes `fetch_kuma_metrics` return an empty mapping
(after one network call) without raising, leaving the cache exactly as it
was; and in general the cache changes only when the HTTP fetch succeeded
and its body parsed, in which case it holds exactly the parsed snapshot
and the fetch timestamp. -/
theorem c8_error_preserves_cache (cfg : KumaConfig) (c0 : KumaCache) (now : Int) (b : String)
    (hb : cfg.baseUrl = some b) (hbne : b ≠ "")
    (hmiss : ¬ (now - c0.ts < cfg.ttl ∧ c0.data ≠ [])) :
    fetch_kuma_metrics cfg c0 now FetchOutcome.err = ([], c0, 1) ∧
    ∀ (h : FetchOutcome) (r : List (String × PMEntry)) (c1 : KumaCache) (n : Nat),
      fetch_kuma_metrics cfg c0 now h = (r, c1, n) → c1 ≠ c0 →
      ∃ body, h = FetchOutcome.ok body ∧
        c1 = { ts := now, data := parse_prom_metrics body } := by
  constructor
  · unfold fetch_kuma_metrics
    rw [hb]
    simp only [if_neg hbne, if_neg hmiss]
  · intro h r c1 n heq hc
    unfold fetch_kuma_metrics at heq
    rw [hb] at heq
    simp only [if_neg hbne, if_neg hmiss] at heq
    cases h with
    | err =>
        have : c0 = c1 := congrArg (fun x => x.2.1) heq
        exact absurd this.symm hc
    | ok body =>
        refine ⟨body, rfl, ?_⟩
        have : ({ ts := now, data := parse_prom_metrics body } : KumaCache) = c1 :=
          congrArg (fun x => x.2.1) heq
        exact this.symm

/-- C7 witness: concrete two-call run — a successful fetch at t=100
followed by a call at t=105 (TTL 15) that returns the cached snapshot
with zero network calls even though the network would now fail. -/
theorem c7_witness :
    fetch_kuma_metrics ⟨some "http://kuma", none, 15⟩
        (fetch_kuma_metrics ⟨some "http://kuma", none, 15⟩ ⟨0, []⟩ 100
          (FetchOutcome.ok "monitor_status\x7bmonitor_name=\"a\"\x7d 1")).2.1
        105 FetchOutcome.err
      = ((fetch_kuma_metrics ⟨some "http://kuma", none, 15⟩ ⟨0, []⟩ 100
            (FetchOutcome.ok "monitor_status\x7bmonitor_name=\"a\"\x7d 1")).1,
         (fetch_kuma_metrics ⟨some "http://kuma", none, 15⟩ ⟨0, []⟩ 100
            (FetchOutcome.ok "monitor_status\x7bmonitor_name=\"a\"\x7d 1")).2.1, 0) :=
  c7_cached_fetch_idempotent ⟨some "http://kuma", none, 15⟩ ⟨0, []⟩ 100 105 _ _
    "http://kuma" rfl (by decide) (by decide) (by decide)

/-- C8 witness: concrete failing fetch — endpoint configured, stale empty
cache, network error: the result is empty, the cache object is returned
unchanged, and exactly one network call was made. -/
theorem c8_witness :
    fetch_kuma_metrics ⟨some "http://kuma", none, 15⟩ ⟨0, []⟩ 100 FetchOutcome.err
      = ([], ⟨0, []⟩, 1) :=
  (c8_error_preserves_cache ⟨some "http://kuma", none, 15⟩ ⟨0, []⟩ 100 "http://kuma"
    rfl (by decide) (by decide)).1

/-! ## C2/C4 helper: an inconclusive CLI tier returns no verdict -/

/-- If every `ps` invocation is inconclusive (absent binary, any raised
exception, or token-free output), the CLI tier of
`docker_utils.get_status` produces no verdict. -/
theorem cliPsLoop_none (exec : List String → ExecOutcome) (p : DuPath)
    (l : List (Option String))
    (h : ∀ proj ∈ l, inconclusiveB (exec (psCmd p proj)) = true) :
    cliPsLoop exec p l = none := by
  induction l with
  | nil => rfl
  | cons proj rest ih =>
      have hr : ∀ q ∈ rest, inconclusiveB (exec (psCmd p q)) = true :=
        fun q hq => h q (List.mem_cons_of_mem _ hq)
      cases hx : exec (psCmd p proj) with
      | completed rc out =>
          have hp := h proj (List.mem_cons_self _ _)
          rw [hx] at hp
          simp only [inconclusiveB, Bool.not_eq_true'] at hp
          simp [cliPsLoop, hx, hp, ih hr]
      | notFound m => simp [cliPsLoop, hx]
      | raisedExc m => simp [cliPsLoop, hx, ih hr]

/-! ## C2: inconclusive CLI falls through to monitor and probe tiers -/

/-- C2: for a service whose compose path is present, if every `ps`
invocation of the CLI tier errors, times out, hits a missing binary, or
completes with output containing none of `up`/`running`/`healthy`/
`started`, then `docker_utils.get_status` is exactly the monitor-tier-
then-HTTP-probe computation — no verdict (such as `stopped`) comes from
the CLI tier alone. -/
theorem c2_inconclusive_cli_falls_through (env : DuEnv) (s : DuService)
    (kuma : List (String × PMEntry)) (p : DuPath)
    (hp : s.composePath = some p)
    (h : ∀ proj ∈ projectCandidates p.parentName,
        inconclusiveB (env.exec (psCmd p proj)) = true) :
    get_status_du env s kuma = kumaHttpTier env.http s.url s.name kuma := by
  simp only [get_status_du, hp]
  rw [cliPsLoop_none env.exec p _ h]

/-- C2 witness: a concrete service whose four `ps` attempts all time out
is resolved by the monitor/probe tail (here: no monitor matches, the
probe returns 200, so the verdict is `running`). -/
theorem c2_witness :
    get_status_du
      ⟨fun _ => ExecOutcome.raisedExc "TimeoutExpired", fun _ => HttpOutcome.resp 200⟩
      ⟨some "wiki", some "http://wiki.local", some ⟨"/srv/wiki/docker-compose.yml", some "wiki"⟩⟩
      []
      = kumaHttpTier (fun _ => HttpOutcome.resp 200) (some "http://wiki.local") (some "wiki") [] :=
  c2_inconclusive_cli_falls_through
    ⟨fun _ => ExecOutcome.raisedExc "TimeoutExpired", fun _ => HttpOutcome.resp 200⟩
    ⟨some "wiki", some "http://wiki.local", some ⟨"/srv/wiki/docker-compose.yml", some "wiki"⟩⟩
    [] ⟨"/srv/wiki/docker-compose.yml", some "wiki"⟩ rfl (by decide)

/-! ## C4: the monitor tier strictly precedes the HTTP probe -/

/-- C4: when every CLI invocation is inconclusive, a matching monitor
entry carrying a status code decides the verdict — `running` iff the code
equals 1, else `stopped` — for every HTTP oracle (so the service URL is
never probed, even if a probe would return 200); and when no monitor
matches, the resolver is exactly the HTTP probe tier. -/
theorem c4_monitor_tier_precedes_probe (env : DuEnv) (s : DuService)
    (kuma : List (String × PMEntry))
    (hcli : ∀ cmd, inconclusiveB (env.exec cmd) = true) :
    (∀ mon sc, find_kuma_monitor_for_service s.url s.name kuma = some mon →
        mon.status_code = some sc →
        get_status_du env s kuma = (if sc = 1 then "running" else "stopped")) ∧
    (find_kuma_monitor_for_service s.url s.name kuma = none →
        get_status_du env s kuma = httpProbe env.http s.url) := by
  have hfall : get_status_du env s kuma = kumaHttpTier env.http s.url s.name kuma := by
    cases hp : s.composePath with
    | none => simp [get_status_du, hp]
    | some p =>
        simp only [get_status_du, hp]
        rw [cliPsLoop_none env.exec p _ (fun proj _ => hcli _)]
  constructor
  · intro mon sc hm hsc
    rw [hfall]
    simp [kumaHttpTier, hm, hsc]
  · intro hm
    rw [hfall]
    simp [kumaHttpTier, hm]

/-- C4 witness (end-to-end scenario 4): CLI binary absent, monitor for
`http://wiki.local` reports code 0, probe would return 200 — the verdict
is `stopped`. -/
theorem c4_witness :
    get_status_du
      ⟨fun _ => ExecOutcome.notFound "docker", fun _ => HttpOutcome.resp 200⟩
      ⟨some "wiki", some "http://wiki.local", some ⟨"/srv/wiki/docker-compose.yml", some "wiki"⟩⟩
      [("url:http://wiki.local",
        ⟨some "wiki", some "http://wiki.local", some "http://wiki.local", "3", some 0⟩)]
      = "stopped" := by
  have h := (c4_monitor_tier_precedes_probe
    ⟨fun _ => ExecOutcome.notFound "docker", fun _ => HttpOutcome.resp 200⟩
    ⟨some "wiki", some "http://wiki.local", some ⟨"/srv/wiki/docker-compose.yml", some "wiki"⟩⟩
    [("url:http://wiki.local",
      ⟨some "wiki", some "http://wiki.local", some "http://wiki.local", "3", some 0⟩)]
    (fun _ => rfl)).1
    ⟨some "wiki", some "http://wiki.local", some "http://wiki.local", "3", some 0⟩ 0
    (by decide) rfl
  simpa using h

/-! ## C5: the fallback chain after a missing binary -/

/-- If the binary is missing for every command of the alternative list,
the whole list is attempted (each miss counts as tried-and-failed) and no
success is produced. -/
theorem altLoop_notFound_all (exec : List String → ExecOutcome)
    (l : List (List String))
    (h : ∀ cmd ∈ l, (exec cmd).isNotFound = true) :
    altLoop exec l = (none, l) := by
  induction l with
  | nil => rfl
  | cons cmd rest ih =>
      have hr : ∀ c ∈ rest, (exec c).isNotFound = true :=
        fun c hc => h c (List.mem_cons_of_mem _ hc)
      have hc := h cmd (List.mem_cons_self _ _)
      cases hx : exec cmd with
      | notFound m => simp [altLoop, hx, ih hr]
      | raisedExc m => rw [hx] at hc; simp [ExecOutcome.isNotFound] at hc
      | completed rc o => rw [hx] at hc; simp [ExecOutcome.isNotFound] at hc

/-- C5 counterexample: with the orchestration binary missing everywhere
(`exec` always raises `FileNotFoundError`), after the first attempted
invocation (`docker compose -p wiki -f … up -d`, index 0 of the trace)
the runner's next attempted invocation (index 1) is the long-flag
`docker compose --file` variant — not the legacy `docker-compose`
binary, contrary to the claim that the remaining `docker compose`
command forms are skipped. -/
theorem c5_counterexample :
    ((run_compose ⟨fun _ => ExecOutcome.notFound "docker", none⟩ true
        ⟨"/srv/wiki/docker-compose.yml", some "wiki"⟩ "up").2.get? 1
      = some ["docker", "compose", "-p", "wiki", "--file",
              "/srv/wiki/docker-compose.yml", "up", "-d"]) ∧
    ((run_compose ⟨fun _ => ExecOutcome.notFound "docker", none⟩ true
        ⟨"/srv/wiki/docker-compose.yml", some "wiki"⟩ "up").2.get? 1
      ≠ some (legacyCmd ⟨"/srv/wiki/docker-compose.yml", some "wiki"⟩ "up")) := by
  decide

/-- C5 (amended): when the binary is missing on the first invocation
attempt, `run_compose` abandons the remaining primary-form (`-f`)
candidates and moves to the alternative list, where it still attempts
every long-flag `docker compose --file` variant — a missing binary there
counting as a tried-and-failed attempt rather than aborting the chain —
and attempts the legacy `docker-compose` binary last. -/
theorem c5_next_attempt_after_missing_binary (env : RunEnv) (p : DuPath)
    (action : String) (c0 : Option String) (rest : List (Option String))
    (hc : projectCandidates p.parentName = c0 :: rest)
    (h1 : (env.exec (primaryCmd p action c0)).isNotFound = true)
    (h2 : ∀ cmd ∈ altCmds p action (c0 :: rest), (env.exec cmd).isNotFound = true) :
    (run_compose env true p action).2
      = primaryCmd p action c0 :: altCmds p action (c0 :: rest) ∧
    (altCmds p action (c0 :: rest)).getLast? = some (legacyCmd p action) := by
  constructor
  · have hal := altLoop_notFound_all env.exec (altCmds p action (c0 :: rest)) h2
    simp only [run_compose, hc]
    cases hx : env.exec (primaryCmd p action c0) with
    | notFound m =>
        simp only [primaryLoop, hx, hal]
        by_cases hd : action = "down"
        · cases hs : env.sdkDownMsg <;> simp [hd, hs]
        · simp [hd]
    | raisedExc m => rw [hx] at h1; simp [ExecOutcome.isNotFound] at h1
    | completed rc o => rw [hx] at h1; simp [ExecOutcome.isNotFound] at h1
  · simp only [altCmds, List.map_cons, ← List.cons_append, List.getLast?_append_cons]
    rfl

/-- C5 witness: the amended behaviour at a concrete missing-binary run —
the trace is the first `-f` attempt followed by the four `--file`
variants and finally the legacy binary. -/
theorem c5_witness :
    (run_compose ⟨fun _ => ExecOutcome.notFound "docker", none⟩ true
        ⟨"/srv/wiki/docker-compose.yml", some "wiki"⟩ "up").2
      = primaryCmd ⟨"/srv/wiki/docker-compose.yml", some "wiki"⟩ "up" (some "wiki")
          :: altCmds ⟨"/srv/wiki/docker-compose.yml", some "wiki"⟩ "up"
               (some "wiki" :: [some "docker", some "services", none]) ∧
    (altCmds ⟨"/srv/wiki/docker-compose.yml", some "wiki"⟩ "up"
        (some "wiki" :: [some "docker", some "services", none])).getLast?
      = some (legacyCmd ⟨"/srv/wiki/docker-compose.yml", some "wiki"⟩ "up") :=
  c5_next_attempt_after_missing_binary
    ⟨fun _ => ExecOutcome.notFound "docker", none⟩
    ⟨"/srv/wiki/docker-compose.yml", some "wiki"⟩ "up"
    (some "wiki") [some "docker", some "services", none]
    (by decide) rfl (by decide)

/-! ## C9: URL normalization does not fold host case -/

/-- C9 counterexample: the source normalization keeps the netloc's
original case (`urlparse` lowercases only the scheme), so neither the
service-side key nor the monitor-side key for
`https://Example.com:8080/...` is the claimed all-lowercase
`url:https://example.com:8080`. -/
theorem c9_counterexample :
    serviceUrlKey "https://Example.com:8080/path?x=1" ≠ "url:https://example.com:8080" ∧
    (normUrl (some "https://Example.com:8080/")).map (fun n => "url:" ++ n)
      ≠ some "url:https://example.com:8080" := by
  decide

/-- C9 (amended): `https://Example.com:8080/path?x=1` and
`https://Example.com:8080/` both normalize — on the monitor-entry side
(`_norm_url`) and on the service-descriptor side
(`find_kuma_monitor_for_service`) — to the same key
`url:https://Example.com:8080`: scheme and netloc kept (host case
preserved), path/query and trailing slash stripped; consequently a
service URL in the first form matches a monitor scraped with the second
form. -/
theorem c9_normalization_preserves_case :
    normUrl (some "https://Example.com:8080/path?x=1") = some "https://Example.com:8080" ∧
    normUrl (some "https://Example.com:8080/") = some "https://Example.com:8080" ∧
    serviceUrlKey "https://Example.com:8080/path?x=1" = "url:https://Example.com:8080" ∧
    serviceUrlKey "https://Example.com:8080/" = "url:https://Example.com:8080" ∧
    (find_kuma_monitor_for_service (some "https://Example.com:8080/path?x=1") none
        (parse_prom_metrics
          "monitor_status\x7bmonitor_url=\"https://Example.com:8080/\"\x7d 1")).isSome
      = true := by
  refine ⟨by decide, by decide, by decide, by decide, by decide⟩

/-! ## C6: key reachability in the parsed snapshot -/

/-- Looking up the key just inserted returns the inserted value. -/
theorem dictGet_insert_self {α : Type} (d : List (String × α)) (k : String) (v : α) :
    dictGet (dictInsert d k v) k = some v := by
  induction d with
  | nil => simp [dictInsert, dictGet]
  | cons hd tl ih =>
      obtain ⟨k', v'⟩ := hd
      by_cases h : k' = k
      · simp [dictInsert, dictGet, h]
      · simp [dictInsert, dictGet, h, ih]

/-- Inserting under a different key does not change a lookup. -/
theorem dictGet_insert_ne {α : Type} (d : List (String × α)) (k k2 : String) (v : α)
    (h : k2 ≠ k) : dictGet (dictInsert d k2 v) k = dictGet d k := by
  induction d with
  | nil => simp [dictInsert, dictGet, h]
  | cons hd tl ih =>
      obtain ⟨k', v'⟩ := hd
      have h4 : k ≠ k2 := Ne.symm h
      by_cases h2 : k' = k2
      · subst h2
        simp [dictInsert, dictGet, h]
      · by_cases h3 : k' = k <;> simp [dictInsert, dictGet, h2, h3, h4, ih]

/-- Folding inserts of one value over a key list it does not contain
leaves a lookup unchanged. -/
theorem dictGet_foldInsert_notMem {α : Type} (ks : List String)
    (m : List (String × α)) (v : α) (k : String) (hk : k ∉ ks) :
    dictGet (ks.foldl (fun acc k2 => dictInsert acc k2 v) m) k = dictGet m k := by
  induction ks generalizing m with
  | nil => rfl
  | cons k0 rest ih =>
      have hne : k0 ≠ k := fun h => hk (by simp [h])
      simp only [List.foldl_cons]
      rw [ih _ (fun h => hk (List.mem_cons_of_mem _ h)), dictGet_insert_ne _ _ _ _ hne]

/-- Folding inserts of one value over a key list containing `k` makes the
lookup at `k` return that value. -/
theorem dictGet_foldInsert_mem {α : Type} (ks : List String)
    (m : List (String × α)) (v : α) (k : String) (hk : k ∈ ks) :
    dictGet (ks.foldl (fun acc k2 => dictInsert acc k2 v) m) k = some v := by
  induction ks generalizing m with
  | nil => cases hk
  | cons k0 rest ih =>
      simp only [List.foldl_cons]
      by_cases h : k ∈ rest
      · exact ih _ h
      · have hk0 : k = k0 := by
          rcases List.mem_cons.mp hk with h1 | h2
          · exact h1
          · exact absurd h2 h
        subst hk0
        rw [dictGet_foldInsert_notMem rest _ v k h, dictGet_insert_self]

/-- `registerEntry` makes each of the entry's keys resolve to it. -/
theorem dictGet_register_self (m : List (String × PMEntry)) (e : PMEntry) (k : String)
    (hk : k ∈ keyListOf e) : dictGet (registerEntry m e) k = some e :=
  dictGet_foldInsert_mem _ _ _ _ hk

/-- `registerEntry` leaves lookups outside the entry's keys unchanged. -/
theorem dictGet_register_other (m : List (String × PMEntry)) (e : PMEntry) (k : String)
    (hk : k ∉ keyListOf e) : dictGet (registerEntry m e) k = dictGet m k :=
  dictGet_foldInsert_notMem _ _ _ _ hk

/-- Registering entries none of which owns `k` leaves the lookup at `k`
unchanged. -/
theorem dictGet_foldRegister_notMem (vals : List PMEntry)
    (m : List (String × PMEntry)) (k : String)
    (h : ∀ e ∈ vals, k ∉ keyListOf e) :
    dictGet (vals.foldl registerEntry m) k = dictGet m k := by
  induction vals generalizing m with
  | nil => rfl
  | cons e0 rest ih =>
      simp only [List.foldl_cons]
      rw [ih _ (fun e he => h e (List.mem_cons_of_mem _ he)),
          dictGet_register_other _ _ _ (h e0 (List.mem_cons_self _ _))]

/-- Under pairwise key-disjointness, registering all entries makes every
key of every entry resolve to that entry. -/
theorem dictGet_foldRegister_mem : ∀ (vals : List PMEntry)
    (m : List (String × PMEntry)),
    pairwiseDisjointKeysB vals = true → ∀ e ∈ vals, ∀ k ∈ keyListOf e,
    dictGet (vals.foldl registerEntry m) k = some e := by
  intro vals
  induction vals with
  | nil => intro m _ e he; cases he
  | cons e0 rest ih =>
      intro m hp e he k hk
      simp only [pairwiseDisjointKeysB, Bool.and_eq_true, List.all_eq_true] at hp
      obtain ⟨hall, hrest⟩ := hp
      simp only [List.foldl_cons]
      by_cases hmem : e ∈ rest
      · exact ih (registerEntry m e0) hrest e hmem k hk
      · have he0 : e = e0 := by
          rcases List.mem_cons.mp he with h1 | h2
          · exact h1
          · exact absurd h2 hmem
        subst he0
        rw [dictGet_foldRegister_notMem rest _ k ?hnone,
            dictGet_register_self _ _ _ hk]
        case hnone =>
          intro e2 he2 hk2
          have hd := hall e2 he2
          simp only [disjointKeysB, Bool.or_eq_true, decide_eq_true_eq,
            List.all_eq_true] at hd
          rcases hd with hEq | hdisj
          · exact hmem (hEq ▸ he2)
          · have := hdisj k hk
            simp only [decide_eq_true_eq] at this
            exact this hk2

/-- Every value stored in `dictInsert d k v` is a value of `d` or is `v`. -/
theorem mem_dictInsert {α : Type} (d : List (String × α)) (k : String) (v : α)
    (x : String × α) (hx : x ∈ dictInsert d k v) : x ∈ d ∨ x = (k, v) := by
  induction d with
  | nil => simpa [dictInsert] using hx
  | cons hd tl ih =>
      obtain ⟨k', v'⟩ := hd
      by_cases h : k' = k
      · simp only [dictInsert, if_pos h, List.mem_cons] at hx
        rcases hx with h1 | h1
        · exact Or.inr h1
        · exact Or.inl (List.mem_cons_of_mem _ h1)
      · simp only [dictInsert, if_neg h, List.mem_cons] at hx
        rcases hx with h1 | h1
        · exact Or.inl (by simp [h1])
        · rcases ih h1 with h2 | h2
          · exact Or.inl (List.mem_cons_of_mem _ h2)
          · exact Or.inr h2

/-- Every pair in a fold of same-value inserts is from the base mapping
or carries that value. -/
theorem mem_foldInsert {α : Type} (ks : List String) (m : List (String × α)) (v : α)
    (x : String × α)
    (hx : x ∈ ks.foldl (fun acc k => dictInsert acc k v) m) : x ∈ m ∨ x.2 = v := by
  induction ks generalizing m with
  | nil => exact Or.inl hx
  | cons k0 rest ih =>
      simp only [List.foldl_cons] at hx
      rcases ih _ hx with h | h
      · rcases mem_dictInsert _ _ _ _ h with h2 | h2
        · exact Or.inl h2
        · exact Or.inr (by rw [h2])
      · exact Or.inr h

/-- Every value of the final mapping is one of the registered entries. -/
theorem mem_foldRegister (vals : List PMEntry) (m : List (String × PMEntry))
    (x : String × PMEntry) (hx : x ∈ vals.foldl registerEntry m) :
    x ∈ m ∨ x.2 ∈ vals := by
  induction vals generalizing m with
  | nil => exact Or.inl hx
  | cons e0 rest ih =>
      simp only [List.foldl_cons] at hx
      rcases ih _ hx with h | h
      · rcases mem_foldInsert (keyListOf e0) m e0 x h with h2 | h2
        · exact Or.inl h2
        · exact Or.inr (by rw [h2]; exact List.mem_cons_self _ _)
      · exact Or.inr (List.mem_cons_of_mem _ h)

/-- C6 counterexample: two metric lines with the same `monitor_name` but
different `monitor_url` produce two entries; the later one overwrites the
shared `name:x` key, so the first entry is no longer reachable under its
name key — the snapshot violates the claimed all-keys reachability. -/
theorem c6_counterexample :
    entryKeysConsistent (parse_prom_metrics
        "monitor_status\x7bmonitor_name=\"x\",monitor_url=\"http://a\"\x7d 1\nmonitor_status\x7bmonitor_name=\"x\",monitor_url=\"http://b\"\x7d 1")
      = false := by
  decide

/-- C6 (amended): for every metrics text whose grouped entries are
pairwise key-disjoint (no two distinct entries share a lowercased name, a
monitor id, or a normalized URL), every entry of the parsed snapshot is
reachable under each of its non-absent keys (`url:`, `name:`, `id:`) and
all such lookups return that same entry. -/
theorem c6_keys_consistent_when_disjoint (text : String)
    (hp : pairwiseDisjointKeysB (groupedEntries text) = true) :
    entryKeysConsistent (parse_prom_metrics text) = true := by
  unfold entryKeysConsistent
  rw [List.all_eq_true]
  intro e he
  rw [List.all_eq_true]
  intro k hk
  simp only [List.mem_map] at he
  obtain ⟨x, hx, rfl⟩ := he
  simp only [parse_prom_metrics, buildMapped] at hx ⊢
  rcases mem_foldRegister _ _ _ hx with h | h
  · cases h
  · exact decide_eq_true (dictGet_foldRegister_mem _ [] hp x.2 h k hk)

/-- C6 witness: a feed with two fully distinct monitors satisfies the
disjointness hypothesis, and its snapshot passes the all-keys
reachability check. -/
theorem c6_witness :
    pairwiseDisjointKeysB (groupedEntries
        "monitor_status\x7bmonitor_name=\"wiki\",monitor_url=\"http://wiki.local\",monitor_id=\"1\"\x7d 1\nmonitor_status\x7bmonitor_name=\"pihole\",monitor_url=\"http://pi.hole\",monitor_id=\"2\"\x7d 0")
      = true ∧
    entryKeysConsistent (parse_prom_metrics
        "monitor_status\x7bmonitor_name=\"wiki\",monitor_url=\"http://wiki.local\",monitor_id=\"1\"\x7d 1\nmonitor_status\x7bmonitor_name=\"pihole\",monitor_url=\"http://pi.hole\",monitor_id=\"2\"\x7d 0")
      = true :=
  ⟨by decide, c6_keys_consistent_when_disjoint _ (by decide)⟩
